import Mathlib

/-!
Verification of the Addicted dashboard data layer.

The repository has two source files:
- `main.js`: browser script with `fetchWeedPrice`, `fetchWeedSupply`,
  `updateDashboard`;
- a data-service module with `getWeedPrice`, `getTokenSupply`, and two stub
  functions `getMintBurnEvents`, `getPackDistribution`.

The embedding below models the JavaScript values the code manipulates
(`JsVal`), the builtin operations it relies on (optional chaining, strict
property access that can throw a TypeError, truthiness, `parseFloat`,
`Number.prototype.toFixed`, `toLocaleString`), and each function of the
source as a total Lean function over an explicit model of the network
response it receives.  Exceptions are modelled with `Except Unit`; an
async function that never rejects is one that never returns `.error`.
JavaScript numbers are modelled as exact rationals plus a `NaN` marker
(`JsNum`): the claims under study depend only on parse/NaN behaviour,
never on IEEE-754 rounding.
-/

/-- A JavaScript number: either `NaN` or a numeric value, modelled as an
exact rational (IEEE-754 rounding is abstracted away; the code under study
only parses decimal strings and formats them). Infinities do not arise on
the paths modelled and are omitted. -/
inductive JsNum where
  | nan : JsNum
  | val (q : ℚ) : JsNum
deriving DecidableEq

/-- A JavaScript/JSON value, as produced by `res.json()` and consumed by the
fetchers: `undefined`, `null`, booleans, numbers, strings and objects
(association lists keyed by strings). Arrays never occur on the modelled
paths and are omitted. -/
inductive JsVal where
  | undefined : JsVal
  | null : JsVal
  | bool (b : Bool) : JsVal
  | num (n : JsNum) : JsVal
  | str (s : String) : JsVal
  | obj (fields : List (String × JsVal)) : JsVal

/-- JavaScript truthiness: `undefined`, `null`, `false`, `NaN`, `0` and the
empty string are falsy; every other value (objects included) is truthy. -/
def JsVal.truthy : JsVal → Bool
  | JsVal.undefined => false
  | JsVal.null => false
  | JsVal.bool b => b
  | JsVal.num JsNum.nan => false
  | JsVal.num (JsNum.val q) => decide (q ≠ 0)
  | JsVal.str s => decide (s ≠ "")
  | JsVal.obj _ => true

/-- Is this value JavaScript `null`? Models the strict comparison
`x !== null` (negated). -/
def JsVal.isNull : JsVal → Bool
  | JsVal.null => true
  | _ => false

/-- Optional-chaining property access `a?.k`: short-circuits to `undefined`
on `undefined`/`null`; looks the key up on an object (absent key gives
`undefined`); gives `undefined` on other primitives (which carry none of the
property names used by this code). -/
def JsVal.getOpt : JsVal → String → JsVal
  | JsVal.undefined, _ => JsVal.undefined
  | JsVal.null, _ => JsVal.undefined
  | JsVal.obj fields, k =>
      match fields.find? (fun p => p.1 == k) with
      | some p => p.2
      | none => JsVal.undefined
  | _, _ => JsVal.undefined

/-- Strict property access `a.k`: throws a TypeError (modelled as
`Except.error ()`) on `undefined`/`null`; otherwise behaves like `getOpt`. -/
def JsVal.getStrict : JsVal → String → Except Unit JsVal
  | JsVal.undefined, _ => Except.error ()
  | JsVal.null, _ => Except.error ()
  | JsVal.obj fields, k =>
      match fields.find? (fun p => p.1 == k) with
      | some p => Except.ok p.2
      | none => Except.ok JsVal.undefined
  | _, _ => Except.ok JsVal.undefined

/-- Numeric value of a non-empty list of decimal digit characters. -/
def digitsVal (cs : List Char) : ℕ :=
  cs.foldl (fun a c => 10 * a + (c.toNat - 48)) 0

/-- Model of the JavaScript builtin `parseFloat` on strings, restricted to
decimal notation with an optional exponent (the `Infinity` literal, which
cannot arise from the RPC responses under study, is omitted): skip leading
whitespace, read an optional sign, then the longest prefix of the form
`digits [. digits] [e|E [sign] digits]`; if that prefix holds no digit the
result is `NaN`, otherwise its exact decimal value. -/
def parseFloat (s : String) : JsNum :=
  let cs := s.toList.dropWhile (fun c => c == ' ' || c == '\t' || c == '\n' || c == '\r')
  let sgn : ℚ := match cs with
    | '-' :: _ => -1
    | _ => 1
  let cs := match cs with
    | '-' :: rest => rest
    | '+' :: rest => rest
    | _ => cs
  let intPart := cs.takeWhile Char.isDigit
  let cs2 := cs.dropWhile Char.isDigit
  let fracPart := match cs2 with
    | '.' :: rest => rest.takeWhile Char.isDigit
    | _ => []
  let cs3 := match cs2 with
    | '.' :: rest => rest.dropWhile Char.isDigit
    | _ => cs2
  if intPart.isEmpty && fracPart.isEmpty then JsNum.nan
  else
    let mantissa : ℚ := (digitsVal intPart : ℚ) + (digitsVal fracPart : ℚ) / (10 ^ fracPart.length)
    let expo : ℤ := match cs3 with
      | e :: rest =>
          if e == 'e' || e == 'E' then
            let esgn : ℤ := match rest with
              | '-' :: _ => -1
              | _ => 1
            let rest2 := match rest with
              | '-' :: r => r
              | '+' :: r => r
              | _ => rest
            let eds := rest2.takeWhile Char.isDigit
            if eds.isEmpty then 0 else esgn * (digitsVal eds : ℤ)
          else 0
      | [] => 0
    JsNum.val (sgn * mantissa * (10 : ℚ) ^ expo)

/-- `parseFloat` applied to an arbitrary JavaScript value, which the builtin
first coerces to a string: strings are parsed, numbers survive the
string round trip unchanged, and `undefined`, `null`, booleans and objects
coerce to strings (`"undefined"`, `"[object Object]"`, ...) that parse to
`NaN`. -/
def parseFloatVal : JsVal → JsNum
  | JsVal.str s => parseFloat s
  | JsVal.num n => n
  | _ => JsNum.nan

/-- The `$WEED` mint address, the module-level constant both fetchers key
their requests and lookups on. -/
def WEED_MINT_ADDRESS : String := "E2gLkTXSbbTMmJM19xkquawun2ShJSi7G59A8c2PtbFa"

/-- Outcome of one fetcher invocation: `result` is the value the returned
promise settles with (`Except.error` would be a rejection propagated to the
caller), and `logged` records whether `console.error` emitted a diagnostic. -/
structure FetchOutcome (α : Type) where
  result : Except Unit α
  logged : Bool

/-- The value of `data?.data?.[WEED_MINT_ADDRESS]?.price` for a parsed
response body `data` — the exact lookup chain of `getWeedPrice` /
`fetchWeedPrice`. -/
def pricePath (data : JsVal) : JsVal :=
  ((data.getOpt "data").getOpt WEED_MINT_ADDRESS).getOpt "price"

/-- The `try` block of `getWeedPrice` / `fetchWeedPrice`. Its input models
the price-service interaction: `none` when `fetch` or `res.json()` throws
(network failure or unparseable body), `some data` when a JSON body was
parsed. The block evaluates `priceInfo?.price || null`: the looked-up price
if truthy, else `null`. -/
def getWeedPriceBody (resp : Option JsVal) : Except Unit JsVal :=
  match resp with
  | none => Except.error ()
  | some data =>
      Except.ok (if (pricePath data).truthy then pricePath data else JsVal.null)

/-- `getWeedPrice` from the data-service module: runs the body under
`try`/`catch`; a throw is logged and converted to a `null` return. The
returned promise never rejects. -/
def getWeedPrice (resp : Option JsVal) : FetchOutcome JsVal :=
  match getWeedPriceBody resp with
  | Except.ok v => ⟨Except.ok v, false⟩
  | Except.error _ => ⟨Except.ok JsVal.null, true⟩

/-- `fetchWeedPrice` from `main.js`: its logic is identical to
`getWeedPrice` (same lookup chain, same `|| null`, same `catch`); the two
copies differ only in the price-API URL, which the embedding abstracts over
by taking the parsed-or-failed response as input. -/
def fetchWeedPrice (resp : Option JsVal) : FetchOutcome JsVal :=
  getWeedPrice resp

/-- Model of one supply-RPC interaction as seen by the fetcher:
`netFailure` when `fetch` itself throws; otherwise an HTTP response with its
`ok` flag (status in the 2xx range) and its body — `none` when `res.json()`
throws on a malformed body, `some data` when it parses. -/
inductive SupplyResponse where
  | netFailure : SupplyResponse
  | httpResponse (ok : Bool) (body : Option JsVal) : SupplyResponse

/-- The strict access chain `data.result.value.uiAmountString` of the supply
fetchers: each step can throw a TypeError when the previous step produced
`undefined` or `null`. -/
def rpcSupplyField (data : JsVal) : Except Unit JsVal := do
  let r ← data.getStrict "result"
  let v ← r.getStrict "value"
  v.getStrict "uiAmountString"

/-- The shared `try` block of `getTokenSupply` / `fetchWeedSupply`, up to the
computation of `supply`: throw on network failure; throw `new Error` on a
non-ok HTTP status; let `res.json()` throw on a malformed body; then
evaluate `parseFloat(data.result.value.uiAmountString)` — the strict chain
may throw, and `parseFloat` itself never does (it yields `NaN` instead). -/
def supplyBody (resp : SupplyResponse) : Except Unit JsNum :=
  match resp with
  | SupplyResponse.netFailure => Except.error ()
  | SupplyResponse.httpResponse ok body =>
      if ok = false then Except.error ()
      else
        match body with
        | none => Except.error ()
        | some data =>
            match rpcSupplyField data with
            | Except.error e => Except.error e
            | Except.ok u => Except.ok (parseFloatVal u)

/-- The record `{total, supply}` returned by `getTokenSupply`: `total` is
the hardcoded tokenomics constant, `supply` the parsed `uiAmountString`. -/
structure SupplyInfo where
  total : ℚ
  supply : JsNum
deriving DecidableEq

/-- `getTokenSupply` from the data-service module: on success returns
`{total: 240000000, supply}`; any throw in the body is logged and converted
to a `null` return. The returned promise never rejects. -/
def getTokenSupply (resp : SupplyResponse) : FetchOutcome (Option SupplyInfo) :=
  match supplyBody resp with
  | Except.ok n => ⟨Except.ok (some ⟨240000000, n⟩), false⟩
  | Except.error _ => ⟨Except.ok none, true⟩

/-- `fetchWeedSupply` from `main.js`: same request, status check, parse and
`catch` as `getTokenSupply`, but returns the bare parsed supply number
instead of a record (`none` models its `null` return). -/
def fetchWeedSupply (resp : SupplyResponse) : FetchOutcome (Option JsNum) :=
  match supplyBody resp with
  | Except.ok n => ⟨Except.ok (some n), false⟩
  | Except.error _ => ⟨Except.ok none, true⟩

/-- Left-pad the decimal rendering of `n` with zeros to `width` digits. -/
def natPad (n : ℕ) (width : ℕ) : String :=
  let s := toString n
  String.mk (List.replicate (width - s.length) '0') ++ s

/-- Model of `Number.prototype.toFixed(f)` on a numeric (non-NaN) value:
render the sign, then round `|q|` to `f` fraction digits (ties to the larger
scaled integer, per the ECMAScript algorithm) and print `whole.frac` with
exactly `f` fraction digits. -/
def ratToFixed (q : ℚ) (f : ℕ) : String :=
  let sign := if q < 0 then "-" else ""
  let n : ℕ := (⌊|q| * 10 ^ f + 1 / 2⌋).toNat
  if f = 0 then sign ++ toString n
  else sign ++ toString (n / 10 ^ f) ++ "." ++ natPad (n % 10 ^ f) f

/-- `price.toFixed(4)` as evaluated by `updateDashboard`: defined on
numbers (`NaN.toFixed(4)` is `"NaN"`); on any other value the property
lookup yields `undefined` and the call throws a TypeError (`none`). -/
def JsVal.toFixed4 : JsVal → Option String
  | JsVal.num JsNum.nan => some "NaN"
  | JsVal.num (JsNum.val q) => some (ratToFixed q 4)
  | _ => none

/-- Insert a `','` after every third character of a reversed digit list —
the helper behind thousands grouping. -/
def groupRev : List Char → List Char
  | a :: b :: c :: d :: rest => a :: b :: c :: ',' :: groupRev (d :: rest)
  | l => l

/-- Group the digits of a decimal rendering in threes with commas. -/
def groupThousands (s : String) : String :=
  String.mk (groupRev s.toList.reverse).reverse

/-- Model of `supply.toLocaleString(undefined, {maximumFractionDigits: 3})`
in the default `en-US` locale (the host-locale dependence is fixed to the
common default): `NaN` renders as `"NaN"`; a number is rounded to at most 3
fraction digits, its integer part grouped in threes with commas, and
trailing fraction zeros dropped (minimumFractionDigits defaults to 0). -/
def jsNumToLocale3 : JsNum → String
  | JsNum.nan => "NaN"
  | JsNum.val q =>
      let sign := if q < 0 then "-" else ""
      let n : ℕ := (⌊|q| * 1000 + 1 / 2⌋).toNat
      let fracDigits := ((natPad (n % 1000) 3).toList.reverse.dropWhile (fun c => c == '0')).reverse
      sign ++ groupThousands (toString (n / 1000)) ++
        (if fracDigits.isEmpty then "" else "." ++ String.mk fracDigits)

/-- The two DOM text nodes `updateDashboard` writes: `priceEl` is the
element with id `weed-price`, `supplyEl` the one with id `current-supply`.
`none` models `document.getElementById` returning `null` (element absent);
`some t` an element whose current `textContent` is `t`. -/
structure DomState where
  priceEl : Option String
  supplyEl : Option String
deriving DecidableEq

/-- The supply half of `updateDashboard`: if `supply !== null` and the
element exists, write the locale-formatted supply; otherwise leave the DOM
untouched. Never throws (second component `false`). -/
def writeSupply (supply : Option JsNum) (dom : DomState) : DomState × Bool :=
  match supply with
  | none => (dom, false)
  | some n =>
      match dom.supplyEl with
      | none => (dom, false)
      | some _ => ({ dom with supplyEl := some (jsNumToLocale3 n) }, false)

/-- The DOM-writing tail of `updateDashboard`, given the two awaited fetch
results: if `price !== null` and the price element exists, evaluate
`price.toFixed(4)` (which throws on a non-number — second component `true`,
nothing written) and write `"$" ++ it`; then the supply half. -/
def updateDom (price : JsVal) (supply : Option JsNum) (dom : DomState) : DomState × Bool :=
  if price.isNull then writeSupply supply dom
  else
    match dom.priceEl with
    | none => writeSupply supply dom
    | some _ =>
        match price.toFixed4 with
        | none => (dom, true)
        | some s => writeSupply supply { dom with priceEl := some ("$" ++ s) }

/-- Await a fetcher's promise: `some` its value, `none` when it rejected
(in which case `updateDashboard` itself would reject). -/
def awaited {α : Type} : FetchOutcome α → Option α
  | ⟨Except.ok v, _⟩ => some v
  | ⟨Except.error _, _⟩ => none

/-- `updateDashboard` from `main.js`: await `fetchWeedPrice`, then
`fetchWeedSupply` (sequentially; the model takes each service's response as
input), then perform the two guarded DOM writes. The boolean is `true` iff
the invocation raised (a rejected fetcher promise would propagate, and
`toFixed` on a non-number throws). -/
def updateDashboard (presp : Option JsVal) (sresp : SupplyResponse) (dom : DomState) :
    DomState × Bool :=
  match awaited (fetchWeedPrice presp), awaited (fetchWeedSupply sresp) with
  | some price, some supply => updateDom price supply dom
  | _, _ => (dom, true)

/-- The record shape documented for `getMintBurnEvents`: parallel arrays of
timestamps, minted amounts and burned amounts. -/
structure MintBurnEvents where
  timestamps : List JsNum
  mints : List JsNum
  burns : List JsNum

/-- `getMintBurnEvents(limit = 100)` from the data-service module: a stub
whose body is `return null` for every `limit` (the source's default
argument is 100). -/
def getMintBurnEvents (limit : ℤ) : Option MintBurnEvents :=
  none

/-- The record shape documented for `getPackDistribution`: per-label counts
and a total. -/
structure PackDistribution where
  counts : List (String × ℕ)
  total : ℤ

/-- `getPackDistribution(programId)` from the data-service module: a stub
whose body is `return null` for every `programId`. -/
def getPackDistribution (programId : String) : Option PackDistribution :=
  none

/-- Decidable equality for `Except`, used to evaluate fetcher outcomes on
concrete inputs. -/
instance instDecidableEqExcept {ε α : Type} [DecidableEq ε] [DecidableEq α] :
    DecidableEq (Except ε α) := fun a b =>
  match a, b with
  | Except.ok x, Except.ok y =>
      if h : x = y then Decidable.isTrue (by rw [h]) else Decidable.isFalse (by simp [h])
  | Except.ok _, Except.error _ => Decidable.isFalse (by simp)
  | Except.error _, Except.ok _ => Decidable.isFalse (by simp)
  | Except.error e, Except.error f =>
      if h : e = f then Decidable.isTrue (by rw [h]) else Decidable.isFalse (by simp [h])

section

/- The batteries `Rat` arithmetic operations are `@[irreducible]` by
default; evaluating the embedding on concrete inputs needs them to
unfold. -/
attribute [local semireducible] Rat.mul Rat.add Rat.sub Rat.inv

/-- The supply half of `updateDashboard` never throws. -/
theorem writeSupply_snd (supply : Option JsNum) (dom : DomState) :
    (writeSupply supply dom).2 = false := by
  cases supply with
  | none => rfl
  | some n => cases hd : dom.supplyEl <;> simp [writeSupply, hd]

/-- The supply half of `updateDashboard` never touches the price element. -/
theorem writeSupply_priceEl (supply : Option JsNum) (dom : DomState) :
    (writeSupply supply dom).1.priceEl = dom.priceEl := by
  cases supply with
  | none => rfl
  | some n => cases hd : dom.supplyEl <;> simp [writeSupply, hd]

/-- The supply half of `updateDashboard` either leaves the supply element
untouched or writes the locale rendering of a fetched supply `n` into it. -/
theorem writeSupply_supplyEl_spec (supply : Option JsNum) (dom : DomState) :
    (writeSupply supply dom).1.supplyEl = dom.supplyEl ∨
    ∃ n, supply = some n ∧
      (writeSupply supply dom).1.supplyEl = some (jsNumToLocale3 n) := by
  cases supply with
  | none => exact Or.inl rfl
  | some n =>
      cases hd : dom.supplyEl with
      | none => exact Or.inl (by simp [writeSupply, hd])
      | some t => exact Or.inr ⟨n, rfl, by simp [writeSupply, hd]⟩

/-- C1: for every successful JSON-RPC response whose body yields a
`uiAmountString` that parses to a number `q`, `getTokenSupply` returns the
record `{total: 240000000, supply: q}` (no diagnostic, no rejection), and in
every non-null result of `getTokenSupply` the `total` field is the hardcoded
constant `240000000`. -/
theorem getTokenSupply_success_record (data : JsVal) (s : String) (q : ℚ)
    (hs : rpcSupplyField data = Except.ok (JsVal.str s))
    (hp : parseFloat s = JsNum.val q) :
    getTokenSupply (SupplyResponse.httpResponse true (some data)) =
      ⟨Except.ok (some ⟨240000000, JsNum.val q⟩), false⟩ ∧
    ∀ resp info, (getTokenSupply resp).result = Except.ok (some info) →
      info.total = 240000000 := by
  constructor
  · simp [getTokenSupply, supplyBody, hs, parseFloatVal, hp]
  · intro resp info h
    unfold getTokenSupply at h
    cases hb : supplyBody resp with
    | ok n => rw [hb] at h; simp at h; rw [← h]
    | error e => rw [hb] at h; simp at h

/-- Witness for C1: the end-to-end scenario of the spec, a 2xx response with
body `{"result":{"value":{"uiAmountString":"123456789.123"}}}`. -/
theorem getTokenSupply_success_record_witness :
    getTokenSupply (SupplyResponse.httpResponse true (some (JsVal.obj
        [("result", JsVal.obj [("value", JsVal.obj
          [("uiAmountString", JsVal.str "123456789.123")])])]))) =
      ⟨Except.ok (some ⟨240000000, JsNum.val (123456789123 / 1000)⟩), false⟩ :=
  (getTokenSupply_success_record
    (JsVal.obj [("result", JsVal.obj [("value", JsVal.obj
      [("uiAmountString", JsVal.str "123456789.123")])])])
    "123456789.123" (123456789123 / 1000) rfl (by decide)).1

/-- C2: whenever the looked-up `price` field of the price-service body is
falsy — which covers a missing mint entry, an absent `price` field, and the
number `0` — both price fetchers return `null` without logging. -/
theorem getWeedPrice_falsy_null (data : JsVal)
    (h : (pricePath data).truthy = false) :
    getWeedPrice (some data) = ⟨Except.ok JsVal.null, false⟩ ∧
    fetchWeedPrice (some data) = ⟨Except.ok JsVal.null, false⟩ := by
  have hg : getWeedPrice (some data) = ⟨Except.ok JsVal.null, false⟩ := by
    simp [getWeedPrice, getWeedPriceBody, h]
  exact ⟨hg, hg⟩

/-- Witness for C2: a body carrying `price: 0` for the mint yields `null`. -/
theorem getWeedPrice_falsy_null_witness :
    getWeedPrice (some (JsVal.obj [("data", JsVal.obj
        [(WEED_MINT_ADDRESS, JsVal.obj [("price", JsVal.num (JsNum.val 0))])])])) =
      ⟨Except.ok JsVal.null, false⟩ :=
  (getWeedPrice_falsy_null _ (by decide)).1

/-- C4: whenever the price-service body maps the mint to a record whose
`price` field is a positive number `q`, both price fetchers return exactly
that number. -/
theorem getWeedPrice_positive (data : JsVal) (q : ℚ)
    (h : pricePath data = JsVal.num (JsNum.val q)) (hq : 0 < q) :
    getWeedPrice (some data) = ⟨Except.ok (JsVal.num (JsNum.val q)), false⟩ ∧
    fetchWeedPrice (some data) = ⟨Except.ok (JsVal.num (JsNum.val q)), false⟩ := by
  have ht : (pricePath data).truthy = true := by
    rw [h]; simp [JsVal.truthy]; exact hq.ne'
  have hg : getWeedPrice (some data) = ⟨Except.ok (pricePath data), false⟩ := by
    simp [getWeedPrice, getWeedPriceBody, ht]
  rw [h] at hg
  exact ⟨hg, hg⟩

/-- Witness for C4: the spec's scenario 1 body with `price: 0.0042`. -/
theorem getWeedPrice_positive_witness :
    getWeedPrice (some (JsVal.obj [("data", JsVal.obj
        [(WEED_MINT_ADDRESS, JsVal.obj [("price", JsVal.num (JsNum.val (21 / 5000)))])])])) =
      ⟨Except.ok (JsVal.num (JsNum.val (21 / 5000))), false⟩ :=
  (getWeedPrice_positive
    (JsVal.obj [("data", JsVal.obj
      [(WEED_MINT_ADDRESS, JsVal.obj [("price", JsVal.num (JsNum.val (21 / 5000)))])])])
    (21 / 5000) rfl (by decide)).1

/-- C5: on any HTTP response whose status is not in the 2xx range
(`res.ok` false), both supply fetchers log the thrown `HTTP <status>` error
and return `null`, whatever the body. -/
theorem getTokenSupply_non2xx_null (body : Option JsVal) :
    getTokenSupply (SupplyResponse.httpResponse false body) = ⟨Except.ok none, true⟩ ∧
    fetchWeedSupply (SupplyResponse.httpResponse false body) = ⟨Except.ok none, true⟩ :=
  ⟨rfl, rfl⟩

/-- C9: the stubs `getMintBurnEvents` and `getPackDistribution` return
`null` on every input, including the default limit `100`. -/
theorem stubs_return_null (limit : ℤ) (programId : String) :
    getMintBurnEvents limit = none ∧ getPackDistribution programId = none ∧
    getMintBurnEvents 100 = none :=
  ⟨rfl, rfl, rfl⟩

/-- C10: whenever the looked-up `price` field is truthy — be it a negative
number or a non-numeric value such as a string — both price fetchers return
it unchanged: no numeric validation or type check is performed. -/
theorem getWeedPrice_truthy_passthrough (data : JsVal)
    (h : (pricePath data).truthy = true) :
    getWeedPrice (some data) = ⟨Except.ok (pricePath data), false⟩ ∧
    fetchWeedPrice (some data) = ⟨Except.ok (pricePath data), false⟩ := by
  have hg : getWeedPrice (some data) = ⟨Except.ok (pricePath data), false⟩ := by
    simp [getWeedPrice, getWeedPriceBody, h]
  exact ⟨hg, hg⟩

/-- Witness for C10: a body carrying the string `"abc"` as `price` is
returned as-is. -/
theorem getWeedPrice_truthy_passthrough_witness :
    getWeedPrice (some (JsVal.obj [("data", JsVal.obj
        [(WEED_MINT_ADDRESS, JsVal.obj [("price", JsVal.str "abc")])])])) =
      ⟨Except.ok (JsVal.str "abc"), false⟩ :=
  (getWeedPrice_truthy_passthrough
    (JsVal.obj [("data", JsVal.obj
      [(WEED_MINT_ADDRESS, JsVal.obj [("price", JsVal.str "abc")])])])
    (by decide)).1

/-- C3 counterexample: on the 2xx response with body
`{"result":{"value":{}}}` — `result.value` exists but `uiAmountString` is
absent — `getTokenSupply` does not return `null`: the property access yields
`undefined` without throwing, `parseFloat(undefined)` is `NaN`, and the
fetcher returns the NaN-carrying record `{total: 240000000, supply: NaN}`
(and `fetchWeedSupply` returns `NaN`), contradicting the claim. -/
theorem getTokenSupply_missing_field_counterexample :
    getTokenSupply (SupplyResponse.httpResponse true (some (JsVal.obj
        [("result", JsVal.obj [("value", JsVal.obj [])])]))) =
      ⟨Except.ok (some ⟨240000000, JsNum.nan⟩), false⟩ ∧
    (getTokenSupply (SupplyResponse.httpResponse true (some (JsVal.obj
        [("result", JsVal.obj [("value", JsVal.obj [])])])))).result ≠
      Except.ok none ∧
    fetchWeedSupply (SupplyResponse.httpResponse true (some (JsVal.obj
        [("result", JsVal.obj [("value", JsVal.obj [])])]))) =
      ⟨Except.ok (some JsNum.nan), false⟩ := by
  refine ⟨rfl, ?_, rfl⟩
  have he : (getTokenSupply (SupplyResponse.httpResponse true (some (JsVal.obj
      [("result", JsVal.obj [("value", JsVal.obj [])])])))).result =
      Except.ok (some (⟨240000000, JsNum.nan⟩ : SupplyInfo)) := rfl
  rw [he]
  simp

/-- C3 amended: when the strict access chain `data.result.value.uiAmountString`
on a 2xx body succeeds but yields a value whose parse is `NaN` (the field
absent or not a parseable number), the supply fetchers return a NaN-carrying
result — `{total: 240000000, supply: NaN}` from `getTokenSupply` and `NaN`
from `fetchWeedSupply` — not `null`; `null` arises only when the access
chain itself throws (e.g. `result` or `result.value` absent). -/
theorem getTokenSupply_nan_not_null (data u : JsVal)
    (hu : rpcSupplyField data = Except.ok u)
    (hn : parseFloatVal u = JsNum.nan) :
    getTokenSupply (SupplyResponse.httpResponse true (some data)) =
      ⟨Except.ok (some ⟨240000000, JsNum.nan⟩), false⟩ ∧
    fetchWeedSupply (SupplyResponse.httpResponse true (some data)) =
      ⟨Except.ok (some JsNum.nan), false⟩ ∧
    ∀ d, rpcSupplyField d = Except.error () →
      getTokenSupply (SupplyResponse.httpResponse true (some d)) =
        ⟨Except.ok none, true⟩ := by
  refine ⟨?_, ?_, ?_⟩
  · simp [getTokenSupply, supplyBody, hu, hn]
  · simp [fetchWeedSupply, supplyBody, hu, hn]
  · intro d hd
    simp [getTokenSupply, supplyBody, hd]

/-- Witness for the amended C3: the counterexample body
`{"result":{"value":{}}}` and, for the `null` side, the body `{}` whose
`result` is `undefined` so that `.value` throws. -/
theorem getTokenSupply_nan_not_null_witness :
    getTokenSupply (SupplyResponse.httpResponse true (some (JsVal.obj
        [("result", JsVal.obj [("value", JsVal.obj [])])]))) =
      ⟨Except.ok (some ⟨240000000, JsNum.nan⟩), false⟩ ∧
    getTokenSupply (SupplyResponse.httpResponse true (some (JsVal.obj []))) =
      ⟨Except.ok none, true⟩ := by
  have h := getTokenSupply_nan_not_null
    (JsVal.obj [("result", JsVal.obj [("value", JsVal.obj [])])])
    JsVal.undefined rfl rfl
  exact ⟨h.1, h.2.2 (JsVal.obj []) rfl⟩

/-- C6: neither fetcher ever rejects — for every possible interaction the
promise resolves (`Except.ok`) — and on every failure path (a throw in the
`try` body) the fetcher logs a diagnostic and resolves with `null`. -/
theorem fetchers_never_raise (presp : Option JsVal) (sresp : SupplyResponse) :
    (∃ v, (getWeedPrice presp).result = Except.ok v) ∧
    (∃ v, (fetchWeedPrice presp).result = Except.ok v) ∧
    (∃ o, (getTokenSupply sresp).result = Except.ok o) ∧
    (∃ o, (fetchWeedSupply sresp).result = Except.ok o) ∧
    (getWeedPriceBody presp = Except.error () →
      getWeedPrice presp = ⟨Except.ok JsVal.null, true⟩ ∧
      fetchWeedPrice presp = ⟨Except.ok JsVal.null, true⟩) ∧
    (supplyBody sresp = Except.error () →
      getTokenSupply sresp = ⟨Except.ok none, true⟩ ∧
      fetchWeedSupply sresp = ⟨Except.ok none, true⟩) := by
  cases hp : getWeedPriceBody presp <;> cases hs : supplyBody sresp <;>
    simp [getWeedPrice, fetchWeedPrice, getTokenSupply, fetchWeedSupply, hp, hs]

/-- Witness for C6: a network failure on both services — each fetcher logs
and resolves with `null`. -/
theorem fetchers_never_raise_witness :
    getWeedPrice none = ⟨Except.ok JsVal.null, true⟩ ∧
    getTokenSupply SupplyResponse.netFailure = ⟨Except.ok none, true⟩ := by
  have h := fetchers_never_raise none SupplyResponse.netFailure
  exact ⟨(h.2.2.2.2.1 rfl).1, (h.2.2.2.2.2 rfl).1⟩

/-- When the awaited price is `null`, the DOM tail skips the price write:
the price element keeps its content. -/
theorem updateDom_priceEl_null (supply : Option JsNum) (dom : DomState) :
    (updateDom JsVal.null supply dom).1.priceEl = dom.priceEl := by
  simp [updateDom, JsVal.isNull, writeSupply_priceEl]

/-- The DOM tail changes the price element only when the awaited price is
not `null`. -/
theorem updateDom_priceEl_spec (price : JsVal) (supply : Option JsNum) (dom : DomState) :
    (updateDom price supply dom).1.priceEl = dom.priceEl ∨ price.isNull = false := by
  cases hn : price.isNull with
  | false => exact Or.inr rfl
  | true =>
      cases price <;> simp [JsVal.isNull] at hn
      exact Or.inl (updateDom_priceEl_null supply dom)

/-- The DOM tail either leaves the supply element untouched or writes the
locale rendering of a fetched supply `n` into it, whatever the price does. -/
theorem updateDom_supplyEl_spec (price : JsVal) (supply : Option JsNum) (dom : DomState) :
    (updateDom price supply dom).1.supplyEl = dom.supplyEl ∨
    ∃ n, supply = some n ∧
      (updateDom price supply dom).1.supplyEl = some (jsNumToLocale3 n) := by
  unfold updateDom
  cases hn : price.isNull with
  | true => simpa using writeSupply_supplyEl_spec supply dom
  | false =>
      cases hd : dom.priceEl with
      | none => simpa using writeSupply_supplyEl_spec supply dom
      | some t =>
          cases hf : price.toFixed4 with
          | none => simp
          | some s =>
              simpa using writeSupply_supplyEl_spec supply
                { dom with priceEl := some ("$" ++ s) }

/-- `updateDashboard` always awaits two resolved fetcher promises (the
fetchers never reject) and hands their values to the DOM tail. -/
theorem updateDashboard_eq (presp : Option JsVal) (sresp : SupplyResponse) (dom : DomState) :
    ∃ price supply,
      (fetchWeedPrice presp).result = Except.ok price ∧
      (fetchWeedSupply sresp).result = Except.ok supply ∧
      updateDashboard presp sresp dom = updateDom price supply dom := by
  cases hp : getWeedPriceBody presp with
  | ok v =>
      cases hs : supplyBody sresp with
      | ok n =>
          exact ⟨v, some n, by simp [fetchWeedPrice, getWeedPrice, hp],
            by simp [fetchWeedSupply, hs],
            by simp [updateDashboard, awaited, fetchWeedPrice, getWeedPrice,
              fetchWeedSupply, hp, hs]⟩
      | error e =>
          exact ⟨v, none, by simp [fetchWeedPrice, getWeedPrice, hp],
            by simp [fetchWeedSupply, hs],
            by simp [updateDashboard, awaited, fetchWeedPrice, getWeedPrice,
              fetchWeedSupply, hp, hs]⟩
  | error e =>
      cases hs : supplyBody sresp with
      | ok n =>
          exact ⟨JsVal.null, some n, by simp [fetchWeedPrice, getWeedPrice, hp],
            by simp [fetchWeedSupply, hs],
            by simp [updateDashboard, awaited, fetchWeedPrice, getWeedPrice,
              fetchWeedSupply, hp, hs]⟩
      | error e2 =>
          exact ⟨JsVal.null, none, by simp [fetchWeedPrice, getWeedPrice, hp],
            by simp [fetchWeedSupply, hs],
            by simp [updateDashboard, awaited, fetchWeedPrice, getWeedPrice,
              fetchWeedSupply, hp, hs]⟩

/-- C7: when `updateDashboard` obtains a numeric (non-null) price `q`, the
invocation raises nothing, and the price element — if present — is
overwritten with `q` formatted to exactly 4 decimal places behind a dollar
sign; if the element is absent the write is skipped (the element stays
absent, no error). -/
theorem updateDashboard_writes_price (presp : Option JsVal) (sresp : SupplyResponse)
    (dom : DomState) (q : ℚ)
    (h : (fetchWeedPrice presp).result = Except.ok (JsVal.num (JsNum.val q))) :
    (updateDashboard presp sresp dom).2 = false ∧
    (∀ t, dom.priceEl = some t →
      (updateDashboard presp sresp dom).1.priceEl = some ("$" ++ ratToFixed q 4)) ∧
    (dom.priceEl = none → (updateDashboard presp sresp dom).1.priceEl = none) := by
  obtain ⟨price, supply, h1, h2, h3⟩ := updateDashboard_eq presp sresp dom
  have hpv : price = JsVal.num (JsNum.val q) := Except.ok.inj (h1.symm.trans h)
  subst hpv
  rw [h3]
  refine ⟨?_, ?_, ?_⟩
  · cases hd : dom.priceEl with
    | none => simp [updateDom, JsVal.isNull, hd, writeSupply_snd]
    | some t => simp [updateDom, JsVal.isNull, hd, JsVal.toFixed4, writeSupply_snd]
  · intro t hd
    simp [updateDom, JsVal.isNull, hd, JsVal.toFixed4, writeSupply_priceEl]
  · intro hd
    simp [updateDom, JsVal.isNull, hd, writeSupply_priceEl]

/-- Witness for C7: the spec's scenario 1 — price `0.0042` arrives, the
price element (initially empty) ends up showing `"$0.0042"`. -/
theorem updateDashboard_writes_price_witness :
    (updateDashboard (some (JsVal.obj [("data", JsVal.obj
        [(WEED_MINT_ADDRESS, JsVal.obj [("price", JsVal.num (JsNum.val (21 / 5000)))])])]))
      SupplyResponse.netFailure ⟨some "", none⟩).1.priceEl = some "$0.0042" :=
  ((updateDashboard_writes_price (some (JsVal.obj [("data", JsVal.obj
        [(WEED_MINT_ADDRESS, JsVal.obj [("price", JsVal.num (JsNum.val (21 / 5000)))])])]))
      SupplyResponse.netFailure ⟨some "", none⟩ (21 / 5000) rfl).2.1 "" rfl).trans
    (by decide)

/-- C8: `updateDashboard` writes each element only from its own fetcher's
non-null result — a `null` supply leaves the supply element's content
unmodified, a `null` price leaves the price element unmodified, any change
to the supply element comes from a fetched supply value, and any change to
the price element requires a non-null fetched price. -/
theorem updateDashboard_frame (presp : Option JsVal) (sresp : SupplyResponse)
    (dom : DomState) :
    ((fetchWeedSupply sresp).result = Except.ok none →
      (updateDashboard presp sresp dom).1.supplyEl = dom.supplyEl) ∧
    ((fetchWeedPrice presp).result = Except.ok JsVal.null →
      (updateDashboard presp sresp dom).1.priceEl = dom.priceEl) ∧
    ((updateDashboard presp sresp dom).1.supplyEl ≠ dom.supplyEl →
      ∃ n, (fetchWeedSupply sresp).result = Except.ok (some n) ∧
        (updateDashboard presp sresp dom).1.supplyEl = some (jsNumToLocale3 n)) ∧
    ((updateDashboard presp sresp dom).1.priceEl ≠ dom.priceEl →
      ∃ v, (fetchWeedPrice presp).result = Except.ok v ∧ v.isNull = false) := by
  obtain ⟨price, supply, h1, h2, h3⟩ := updateDashboard_eq presp sresp dom
  rw [h3]
  refine ⟨?_, ?_, ?_, ?_⟩
  · intro hs
    have hnone : supply = none := Except.ok.inj (h2.symm.trans hs)
    subst hnone
    rcases updateDom_supplyEl_spec price none dom with hu | ⟨n, hn, _⟩
    · exact hu
    · exact absurd hn (by simp)
  · intro hp
    have hnull : price = JsVal.null := Except.ok.inj (h1.symm.trans hp)
    subst hnull
    exact updateDom_priceEl_null supply dom
  · intro hch
    rcases updateDom_supplyEl_spec price supply dom with hu | ⟨n, hn, hout⟩
    · exact absurd hu hch
    · exact ⟨n, by rw [h2, hn], hout⟩
  · intro hch
    rcases updateDom_priceEl_spec price supply dom with hu | hu
    · exact absurd hu hch
    · exact ⟨price, h1, hu⟩

/-- Witness for C8: both fetches fail (network down), so both elements keep
their previous content. -/
theorem updateDashboard_frame_witness :
    (updateDashboard none SupplyResponse.netFailure
      ⟨some "a", some "b"⟩).1.supplyEl = some "b" ∧
    (updateDashboard none SupplyResponse.netFailure
      ⟨some "a", some "b"⟩).1.priceEl = some "a" :=
  ⟨(updateDashboard_frame none SupplyResponse.netFailure ⟨some "a", some "b"⟩).1 rfl,
   (updateDashboard_frame none SupplyResponse.netFailure ⟨some "a", some "b"⟩).2.1 rfl⟩

end
